import Mathlib

/-!
Shallow embedding of the crypto-dagster-pipeline validation-and-persistence
core, translated from
src/crypto_pipeline_project/crypto_pipeline_project/models.py and
src/crypto_pipeline_project/crypto_pipeline_project/assets.py.

Raw records are JSON-like dictionaries (string keys, heterogeneous values).
Python ints are embedded as Int, Python floats as Rat (the claims under
study only compare numeric values and test integrality, so rationals are an
exact model of the float values involved), strings as String, None as a
dedicated constructor, and nested dictionaries structurally.
-/

namespace CryptoPipeline

/-- JSON-like value as carried by a raw record from the source feed. -/
inductive RawValue
  | vNull
  | vInt (n : Int)
  | vFloat (q : Rat)
  | vStr (s : String)
  | vDict (d : List (String × RawValue))

/-- Raw record: an untyped key-value mapping (Python dict); keys are unique
in records produced by the sources, and lookup takes the first binding. -/
def RawRecord := List (String × RawValue)

/-- Key set of a record, in insertion order. -/
def keysOf (r : RawRecord) : List String := r.map Prod.fst

/-- Dictionary lookup (first binding wins, as in a Python dict). -/
def lookupKey (r : RawRecord) (k : String) : Option RawValue :=
  (r.find? (fun p => p.1 == k)).map Prod.snd

/-! ## The CryptoPrice pydantic model (models.py, class CryptoPrice)

Each declared field is checked in declaration order; pydantic v2 collects
one error per failing field (a type error on a field suppresses that same
field's value validator, as in pydantic).  Numeric-string lax coercion
(e.g. the string "1.5" for a float field) is not exercised by any claim and
a string in a numeric field is modelled as the type error pydantic would
report for a non-numeric string. -/

/-- Character class of the symbol pattern [a-z0-9]. -/
def isLowerAlnumChar (c : Char) : Bool :=
  (decide ('a' ≤ c) && decide (c ≤ 'z')) || (decide ('0' ≤ c) && decide (c ≤ '9'))

/-- Drop a single trailing newline, if present. -/
def stripTrailingNewline (l : List Char) : List Char :=
  if l.getLast? = some '\n' then l.dropLast else l

/-- Python re.match with pattern ^[a-z0-9]+$ (models.py validate_symbol):
in Python, the dollar anchor also matches just before one trailing newline,
so a single trailing newline is tolerated by the source code. -/
def pyMatchLowerAlnum (s : String) : Bool :=
  let t := stripTrailingNewline s.data
  (!t.isEmpty) && t.all isLowerAlnumChar

/-- Offending input recorded in a pydantic error: the field value, or the
whole record for a missing-field error (pydantic reports the whole input
dict as the input of a missing error). -/
inductive ErrInput
  | val (v : RawValue)
  | wholeRecord (r : RawRecord)

/-- One validation diagnostic: field name, offending input, reason, as
collected by validate_crypto_data_asset from ValidationError.errors(). -/
structure FieldError where
  field : String
  input : ErrInput
  msg : String

/-- Value validator attached to a float field (models.py decorators). -/
inductive FloatCheck
  | plain
  | nonneg
  | pct
  deriving DecidableEq

/-- Value validator attached to an int field (models.py decorators). -/
inductive IntCheck
  | nonneg
  | rank
  deriving DecidableEq

/-- Declared shape of a CryptoPrice field. -/
inductive FieldKind
  | kStr
  | kSymbol
  | kFloat (chk : FloatCheck)
  | kInt (chk : IntCheck)
  | kOptInt
  | kOptFloat
  | kOptStr
  | kRoi
  deriving DecidableEq

/-- Run the value validator of a float field (validate_positive_values and
validate_percentage in models.py). -/
def floatCheck : FloatCheck → Rat → RawValue → Option (ErrInput × String)
  | .plain, _, _ => none
  | .nonneg, q, v =>
      if q < 0 then some (.val v, "Value error, Price and volume values must be positive")
      else none
  | .pct, q, v =>
      if 1000 < |q| then some (.val v, "Value error, Percentage change seems unreasonable")
      else none

/-- Run the value validator of an int field (validate_positive_values and
validate_rank in models.py). -/
def intCheck : IntCheck → Int → RawValue → Option (ErrInput × String)
  | .nonneg, n, v =>
      if n < 0 then some (.val v, "Value error, Price and volume values must be positive")
      else none
  | .rank, n, v =>
      if n ≤ 0 then some (.val v, "Value error, Market cap rank must be positive")
      else none

/-- Check one field given its declared kind and the looked-up value
(pydantic v2 lax mode: int accepted for float; integral float accepted for
int; explicit None accepted only for Optional fields; a missing Optional
field takes its None default). -/
def checkValue : FieldKind → Option RawValue → RawRecord → Option (ErrInput × String)
  | .kStr, none, r => some (.wholeRecord r, "Field required")
  | .kStr, some (.vStr _), _ => none
  | .kStr, some v, _ => some (.val v, "Input should be a valid string")
  | .kSymbol, none, r => some (.wholeRecord r, "Field required")
  | .kSymbol, some (.vStr s), _ =>
      if pyMatchLowerAlnum s then none
      else some (.val (.vStr s), "Value error, Symbol must be lowercase alphanumeric")
  | .kSymbol, some v, _ => some (.val v, "Input should be a valid string")
  | .kFloat _, none, r => some (.wholeRecord r, "Field required")
  | .kFloat chk, some (.vInt n), _ => floatCheck chk (n : Rat) (.vInt n)
  | .kFloat chk, some (.vFloat q), _ => floatCheck chk q (.vFloat q)
  | .kFloat _, some v, _ => some (.val v, "Input should be a valid number")
  | .kInt _, none, r => some (.wholeRecord r, "Field required")
  | .kInt chk, some (.vInt n), _ => intCheck chk n (.vInt n)
  | .kInt chk, some (.vFloat q), _ =>
      if q.den = 1 then intCheck chk q.num (.vFloat q)
      else some (.val (.vFloat q), "Input should be a valid integer, got a number with a fractional part")
  | .kInt _, some v, _ => some (.val v, "Input should be a valid integer")
  | .kOptInt, none, _ => none
  | .kOptInt, some .vNull, _ => none
  | .kOptInt, some (.vInt _), _ => none
  | .kOptInt, some (.vFloat q), _ =>
      if q.den = 1 then none
      else some (.val (.vFloat q), "Input should be a valid integer, got a number with a fractional part")
  | .kOptInt, some v, _ => some (.val v, "Input should be a valid integer")
  | .kOptFloat, none, _ => none
  | .kOptFloat, some .vNull, _ => none
  | .kOptFloat, some (.vInt _), _ => none
  | .kOptFloat, some (.vFloat _), _ => none
  | .kOptFloat, some v, _ => some (.val v, "Input should be a valid number")
  | .kOptStr, none, _ => none
  | .kOptStr, some .vNull, _ => none
  | .kOptStr, some (.vStr _), _ => none
  | .kOptStr, some v, _ => some (.val v, "Input should be a valid string")
  | .kRoi, none, _ => none
  | .kRoi, some .vNull, _ => none
  | .kRoi, some (.vDict _), _ => none
  | .kRoi, some v, _ => some (.val v, "Input should be a valid dictionary")

/-- Declared fields of CryptoPrice, in declaration order (models.py lines
21-67 with the validators of lines 70-100 attached to their fields). -/
def fieldSpecs : List (String × FieldKind) :=
  [("id", .kStr),
   ("symbol", .kSymbol),
   ("name", .kStr),
   ("image", .kStr),
   ("current_price", .kFloat .nonneg),
   ("market_cap", .kInt .nonneg),
   ("market_cap_rank", .kInt .rank),
   ("fully_diluted_valuation", .kOptInt),
   ("total_volume", .kInt .nonneg),
   ("high_24h", .kFloat .nonneg),
   ("low_24h", .kFloat .nonneg),
   ("price_change_24h", .kFloat .plain),
   ("price_change_percentage_24h", .kFloat .pct),
   ("market_cap_change_24h", .kFloat .plain),
   ("market_cap_change_percentage_24h", .kFloat .pct),
   ("circulating_supply", .kFloat .plain),
   ("total_supply", .kOptFloat),
   ("max_supply", .kOptFloat),
   ("ath", .kFloat .plain),
   ("ath_change_percentage", .kFloat .plain),
   ("ath_date", .kStr),
   ("atl", .kFloat .plain),
   ("atl_change_percentage", .kFloat .plain),
   ("atl_date", .kStr),
   ("roi", .kRoi),
   ("last_updated", .kStr),
   ("fetched_at", .kOptStr)]

/-- Check a single declared field of a record. -/
def checkField (r : RawRecord) (p : String × FieldKind) : Option FieldError :=
  (checkValue p.2 (lookupKey r p.1) r).map (fun ec => ⟨p.1, ec.1, ec.2⟩)

/-- All diagnostics CryptoPrice.model_validate collects for a record: one
per failing declared field, in field declaration order; extra keys are
ignored (model config extra = "ignore"). -/
def modelValidateErrors (r : RawRecord) : List FieldError :=
  fieldSpecs.filterMap (checkField r)

/-- Whether CryptoPrice.model_validate succeeds on a record. -/
def modelValidateOk (r : RawRecord) : Bool :=
  (modelValidateErrors r).isEmpty

/-! ## The validator asset (assets.py, validate_crypto_data_asset)

The asset iterates the batch with enumerate, appending the original raw
record to valid_records when CryptoPrice.model_validate succeeds and an
entry {record_index, record_data, errors} to invalid_records otherwise;
afterwards it logs summary statistics, whose success-rate expression
divides len(valid_records) by total_records (assets.py line 352) with no
zero guard, so a zero-length batch raises ZeroDivisionError. -/

/-- Rejection entry built at assets.py lines 337-341. -/
structure InvalidEntry where
  record_index : Nat
  record_data : RawRecord
  errors : List FieldError

/-- Validation loop of assets.py lines 321-345, starting at index i. -/
def validateLoopGo (i : Nat) : List RawRecord → List RawRecord × List InvalidEntry
  | [] => ([], [])
  | r :: rest =>
      let (vs, ivs) := validateLoopGo (i + 1) rest
      if modelValidateOk r then (r :: vs, ivs)
      else (vs, ⟨i, r, modelValidateErrors r⟩ :: ivs)

/-- Validation loop over a whole batch (enumerate starts at 0). -/
def validateLoop (rs : List RawRecord) : List RawRecord × List InvalidEntry :=
  validateLoopGo 0 rs

/-- Full validator asset: source selection (fetch_crypto_data preferred,
else generate_test_crypto_data, else ValueError), the validation loop, then
the summary logging whose success-rate computation divides by
total_records; the asset returns the valid records. -/
def validateCryptoDataAsset (fetchData genData : Option (List RawRecord)) :
    Except String (List RawRecord) :=
  match fetchData, genData with
  | some raw, _ =>
      let vs := (validateLoop raw).1
      if raw.length = 0 then .error "ZeroDivisionError: division by zero" else .ok vs
  | none, some raw =>
      let vs := (validateLoop raw).1
      if raw.length = 0 then .error "ZeroDivisionError: division by zero" else .ok vs
  | none, none => .error "No data provided for validation"

/-! ## The storage asset (assets.py, store_validated_crypto_data)

The records handed to storage are the raw dicts returned by the validator
(they have no model_dump attribute, so the pd.DataFrame(records) branch
runs).  pandas builds the columns as the union of the records' keys in
first-appearance order; a key missing from a given record yields a missing
cell (NaN).  Object-dtype columns (those holding a string or dict value,
or only None values) have their NaN/None cells replaced by the empty
string; the four datetime columns are then parsed with
pd.to_datetime(errors="coerce") and reformatted with
strftime('%Y-%m-%d %H:%M:%S'), NaT becoming the empty string.  The
timestamp-string parser itself is pandas library code and is a parameter
of the embedding; pandas epoch-parsing of numeric cells in a datetime
column is not exercised (the model types all four date fields as str).
Finally CREATE TABLE IF NOT EXISTS asserts the fixed 27-column schema and
INSERT INTO validated_crypto_data SELECT * FROM df appends positionally,
failing when the column counts differ. -/

/-- Accumulate a key into a column list if not yet present. -/
def addKey (acc : List String) (k : String) : List String :=
  if k ∈ acc then acc else acc ++ [k]

/-- Union of the records' keys in first-appearance order: the columns
pandas gives pd.DataFrame(list-of-dicts). -/
def unionKeys (rs : List RawRecord) : List String :=
  rs.foldl (fun acc r => (keysOf r).foldl addKey acc) []

/-- Cells of one column, one per record (none models NaN for a missing
key). -/
def colCells (rs : List RawRecord) (c : String) : List (Option RawValue) :=
  rs.map (fun r => lookupKey r c)

/-- Whether a cell forces object dtype (a string or nested dict). -/
def cellIsStrDict : Option RawValue → Bool
  | some (.vStr _) => true
  | some (.vDict _) => true
  | _ => false

/-- Whether a cell is None or missing. -/
def cellIsNullish : Option RawValue → Bool
  | some .vNull => true
  | none => true
  | _ => false

/-- Whether pandas infers object dtype for a column: some value is a
string or dict, or every cell is None/missing. -/
def isObjectColumn (rs : List RawRecord) (c : String) : Bool :=
  (colCells rs c).any cellIsStrDict || (colCells rs c).all cellIsNullish

/-- Datetime columns converted at assets.py lines 425-432. -/
def datetimeCols : List String :=
  ["ath_date", "atl_date", "last_updated", "fetched_at"]

/-- Timestamp components as held by a pandas Timestamp; pandas bounds its
timestamps to the years 1677-2262, so each component fits the fixed-width
strftime rendering below. -/
structure PDTimestamp where
  year : Nat
  month : Nat
  day : Nat
  hour : Nat
  minute : Nat
  second : Nat
  deriving DecidableEq

/-- Decimal digit character. -/
def digitChar (m : Nat) : Char :=
  match m with
  | 0 => '0' | 1 => '1' | 2 => '2' | 3 => '3' | 4 => '4'
  | 5 => '5' | 6 => '6' | 7 => '7' | 8 => '8' | _ => '9'

/-- Two-digit zero-padded rendering (exact for values below 100). -/
def pad2 (n : Nat) : List Char :=
  [digitChar (n / 10 % 10), digitChar (n % 10)]

/-- Four-digit zero-padded rendering (exact for values below 10000). -/
def pad4 (n : Nat) : List Char :=
  [digitChar (n / 1000 % 10), digitChar (n / 100 % 10),
   digitChar (n / 10 % 10), digitChar (n % 10)]

/-- strftime('%Y-%m-%d %H:%M:%S') of a timestamp. -/
def strftimeCanonical (t : PDTimestamp) : String :=
  ⟨pad4 t.year ++ '-' :: pad2 t.month ++ '-' :: pad2 t.day ++
   ' ' :: pad2 t.hour ++ ':' :: pad2 t.minute ++ ':' :: pad2 t.second⟩

/-- Per-cell effect of the to_datetime/strftime/fillna step on a datetime
column: a parseable string renders canonically, anything else (unparseable
string, None, NaN, non-string content, which pd.to_datetime coerces to
NaT) becomes the empty string. -/
def datetimeCellConvert (parse : String → Option PDTimestamp) :
    Option RawValue → String
  | some (.vStr s) =>
      match parse s with
      | some t => strftimeCanonical t
      | none => ""
  | _ => ""

/-- Full cell transformation applied by store_validated_crypto_data before
the insert: object-column NaN/None filling (assets.py lines 419-422), then
datetime normalization (lines 425-432) on the four datetime columns. -/
def transformCell (parse : String → Option PDTimestamp) (rs : List RawRecord)
    (c : String) (cell : Option RawValue) : Option RawValue :=
  let cell1 := if isObjectColumn rs c && cellIsNullish cell then some (.vStr "") else cell
  if c ∈ datetimeCols then some (.vStr (datetimeCellConvert parse cell1)) else cell1

/-- Cell stored for record rec at column c in the cleaned DataFrame. -/
def storedCell (parse : String → Option PDTimestamp) (rs : List RawRecord)
    (rec : RawRecord) (c : String) : Option RawValue :=
  transformCell parse rs c (lookupKey rec c)

/-- Cleaned DataFrame: named columns plus one row of cells per record. -/
structure Df where
  columns : List String
  rows : List (List (Option RawValue))

/-- Build the cleaned DataFrame exactly as store_validated_crypto_data
does before connecting to DuckDB. -/
def buildDf (parse : String → Option PDTimestamp) (rs : List RawRecord) : Df :=
  ⟨unionKeys rs, rs.map (fun rec => (unionKeys rs).map (storedCell parse rs rec))⟩

/-- Relational table state: schema (column name, column type) and rows. -/
structure Table where
  schema : List (String × String)
  rows : List (List (Option RawValue))

/-- Fixed 27-column schema of the create_table_sql statement (assets.py
lines 442-472). -/
def fixedSchema : List (String × String) :=
  [("id", "VARCHAR"), ("symbol", "VARCHAR"), ("name", "VARCHAR"),
   ("image", "VARCHAR"), ("current_price", "DOUBLE"), ("market_cap", "BIGINT"),
   ("market_cap_rank", "INTEGER"), ("fully_diluted_valuation", "DOUBLE"),
   ("total_volume", "BIGINT"), ("high_24h", "DOUBLE"), ("low_24h", "DOUBLE"),
   ("price_change_24h", "DOUBLE"), ("price_change_percentage_24h", "DOUBLE"),
   ("market_cap_change_24h", "DOUBLE"), ("market_cap_change_percentage_24h", "DOUBLE"),
   ("circulating_supply", "DOUBLE"), ("total_supply", "DOUBLE"),
   ("max_supply", "DOUBLE"), ("ath", "DOUBLE"), ("ath_change_percentage", "DOUBLE"),
   ("ath_date", "VARCHAR"), ("atl", "DOUBLE"), ("atl_change_percentage", "DOUBLE"),
   ("atl_date", "VARCHAR"), ("last_updated", "VARCHAR"), ("fetched_at", "VARCHAR"),
   ("roi", "VARCHAR")]

/-- Cast one row of DataFrame cells into the table's column types,
position by position: the whole row fails if any single cell's cast
fails, or if the row and schema lengths differ. -/
def coerceRow (cast : String → Option RawValue → Option (Option RawValue)) :
    List (String × String) → List (Option RawValue) → Option (List (Option RawValue))
  | [], [] => some []
  | col :: schema, cell :: cells =>
      match cast col.2 cell, coerceRow cast schema cells with
      | some v, some vs => some (v :: vs)
      | _, _ => none
  | _, _ => none

/-- Cast every row of the DataFrame into the table's column types; any
single failure fails the whole insert (no partial write). -/
def coerceRows (cast : String → Option RawValue → Option (Option RawValue))
    (schema : List (String × String)) :
    List (List (Option RawValue)) → Option (List (List (Option RawValue)))
  | [] => some []
  | row :: rows =>
      match coerceRow cast schema row, coerceRows cast schema rows with
      | some r2, some rs => some (r2 :: rs)
      | _, _ => none

/-- Storage asset over an explicit database state (none = no table file
yet).  An empty input returns the state untouched (assets.py lines
404-406).  Otherwise the cleaned DataFrame is built, CREATE TABLE IF NOT
EXISTS creates the fixed schema only when no table exists (never altering
an existing one), and the positional INSERT ... SELECT * FROM df appends
the rows: it errors out when the DataFrame's column count differs from
the table's, and otherwise casts every cell to its positional column's
type, erroring out (with no partial write) if any cast fails.  The
per-value cast itself is DuckDB library code and is a parameter of the
embedding, like the pandas timestamp parser. -/
def storeValidatedCryptoData (parse : String → Option PDTimestamp)
    (cast : String → Option RawValue → Option (Option RawValue))
    (records : List RawRecord) (db : Option Table) : Except String (Option Table) :=
  if records.isEmpty then .ok db
  else
    let df := buildDf parse records
    let tbl : Table := db.getD ⟨fixedSchema, []⟩
    if df.columns.length = tbl.schema.length then
      match coerceRows cast tbl.schema df.rows with
      | some newRows => .ok (some ⟨tbl.schema, tbl.rows ++ newRows⟩)
      | none =>
          .error "Conversion Error: could not convert DataFrame values to the table's column types"
    else
      .error "Binder Error: table validated_crypto_data has a different number of columns"

/-! ## Concrete records used as test inputs -/

/-- Replace the value bound to a key (keeps the key order). -/
def setVal (r : RawRecord) (k : String) (v : RawValue) : RawRecord :=
  r.map (fun p => if p.1 = k then (k, v) else p)

/-- A well-formed raw record carrying all 27 keys of the input contract. -/
def goodRec : RawRecord :=
  [("id", .vStr "bitcoin"),
   ("symbol", .vStr "btc"),
   ("name", .vStr "Bitcoin"),
   ("image", .vStr "https://img.example/btc.png"),
   ("current_price", .vFloat 100),
   ("market_cap", .vInt 1000000),
   ("market_cap_rank", .vInt 1),
   ("fully_diluted_valuation", .vInt 1100000),
   ("total_volume", .vInt 50000),
   ("high_24h", .vFloat 110),
   ("low_24h", .vFloat 90),
   ("price_change_24h", .vFloat 1),
   ("price_change_percentage_24h", .vFloat 1),
   ("market_cap_change_24h", .vFloat 10),
   ("market_cap_change_percentage_24h", .vFloat 1),
   ("circulating_supply", .vFloat 10000),
   ("total_supply", .vFloat 20000),
   ("max_supply", .vFloat 21000),
   ("ath", .vFloat 200),
   ("ath_change_percentage", .vFloat (-50)),
   ("ath_date", .vStr "2021-11-10T14:24:11.849Z"),
   ("atl", .vFloat 1),
   ("atl_change_percentage", .vFloat 990),
   ("atl_date", .vStr "2013-07-06T00:00:00.000Z"),
   ("roi", .vDict [("percentage", .vFloat 50), ("currency", .vStr "usd")]),
   ("last_updated", .vStr "2024-01-01T00:00:00.000Z"),
   ("fetched_at", .vStr "2024-01-01T00:00:01")]

/-- goodRec with empty-string id and name (exercises claim C3). -/
def emptyIdNameRec : RawRecord :=
  setVal (setVal goodRec "id" (.vStr "")) "name" (.vStr "")

/-- goodRec with a negative current_price. -/
def negPriceRec : RawRecord :=
  setVal goodRec "current_price" (.vFloat (-5))

/-- goodRec with current_price exactly 0. -/
def zeroPriceRec : RawRecord :=
  setVal goodRec "current_price" (.vFloat 0)

/-- goodRec violating two constraints at once: uppercase symbol and
negative current_price. -/
def twoViolationsRec : RawRecord :=
  setVal (setVal goodRec "symbol" (.vStr "BTC")) "current_price" (.vFloat (-5))

/-- goodRec without its optional roi key but with an unrecognized extra
key; still a valid record (roi is optional, extras are ignored). -/
def noRoiExtraKeyRec : RawRecord :=
  goodRec.filter (fun p => p.1 ≠ "roi") ++ [("listing_notes", .vStr "extra")]

/-- Rational value 123.45 = 2469/20, built in normalized form so that the
kernel can evaluate it. -/
def rat123Point45 : Rat :=
  { num := 2469, den := 20, den_nz := by decide, reduced := by decide }

/-- goodRec with a fractional market_cap. -/
def fracMarketCapRec : RawRecord :=
  setVal goodRec "market_cap" (.vFloat rat123Point45)

/-! ## Helper lemmas -/

theorem checkField_field {r : RawRecord} {p : String × FieldKind} {e : FieldError}
    (h : checkField r p = some e) : e.field = p.1 := by
  unfold checkField at h
  cases hc : checkValue p.2 (lookupKey r p.1) r with
  | none => rw [hc] at h; simp at h
  | some ec => rw [hc] at h; simp at h; rw [← h]

theorem mem_modelValidateErrors_iff {r : RawRecord} {e : FieldError} :
    e ∈ modelValidateErrors r ↔ ∃ p ∈ fieldSpecs, checkField r p = some e := by
  unfold modelValidateErrors
  exact List.mem_filterMap

theorem length_filterMap_eq_countP {α β : Type} (f : α → Option β) (l : List α) :
    (l.filterMap f).length = l.countP (fun a => (f a).isSome) := by
  induction l with
  | nil => rfl
  | cons a l ih =>
      rw [List.filterMap_cons, List.countP_cons]
      cases h : f a with
      | none => simp [h, ih]
      | some b => simp [h, ih]

theorem length_modelValidateErrors (r : RawRecord) :
    (modelValidateErrors r).length = fieldSpecs.countP (fun p => (checkField r p).isSome) :=
  length_filterMap_eq_countP (checkField r) fieldSpecs

theorem fieldSpecs_key_unique :
    ∀ p ∈ fieldSpecs, ∀ q ∈ fieldSpecs, p.1 = q.1 → p = q := by decide

theorem mem_errors_of_checkField {r : RawRecord} {p : String × FieldKind} {e : FieldError}
    (hp : p ∈ fieldSpecs) (h : checkField r p = some e) : e ∈ modelValidateErrors r :=
  mem_modelValidateErrors_iff.2 ⟨p, hp, h⟩

theorem no_error_citing_of_check_none {r : RawRecord} {nm : String} {k : FieldKind}
    (hmem : (nm, k) ∈ fieldSpecs) (hnone : checkField r (nm, k) = none) :
    ¬ ∃ e ∈ modelValidateErrors r, e.field = nm := by
  rintro ⟨e, he, hf⟩
  rcases mem_modelValidateErrors_iff.1 he with ⟨p, hp, hpe⟩
  have hfield : e.field = p.1 := checkField_field hpe
  have : p = (nm, k) := fieldSpecs_key_unique p hp (nm, k) hmem (by rw [← hfield, hf])
  rw [this, hnone] at hpe
  exact Option.noConfusion hpe

theorem validateLoopGo_length :
    ∀ (rs : List RawRecord) (i : Nat),
      (validateLoopGo i rs).1.length + (validateLoopGo i rs).2.length = rs.length := by
  intro rs
  induction rs with
  | nil => intro i; rfl
  | cons r rest ih =>
      intro i
      unfold validateLoopGo
      have hih := ih (i + 1)
      cases h : modelValidateOk r <;> simp [h] <;> omega

theorem validateLoopGo_invalid_mem :
    ∀ (rs : List RawRecord) (i j : Nat) (r : RawRecord),
      rs[j]? = some r → modelValidateOk r = false →
      (⟨i + j, r, modelValidateErrors r⟩ : InvalidEntry) ∈ (validateLoopGo i rs).2 := by
  intro rs
  induction rs with
  | nil => intro i j r hget; simp at hget
  | cons hd rest ih =>
      intro i j r hget hbad
      cases j with
      | zero =>
          simp at hget
          subst hget
          unfold validateLoopGo
          simp [hbad]
      | succ j =>
          simp only [List.getElem?_cons_succ] at hget
          have hmem := ih (i + 1) j r hget hbad
          unfold validateLoopGo
          cases h : modelValidateOk hd with
          | true => simpa [h, Nat.add_assoc, Nat.add_comm 1 j] using hmem
          | false =>
              simp only [h, Bool.false_eq_true, if_false, List.mem_cons]
              right
              simpa [Nat.add_assoc, Nat.add_comm 1 j] using hmem

theorem validateLoopGo_valid_mem :
    ∀ (rs : List RawRecord) (i j : Nat) (r : RawRecord),
      rs[j]? = some r → modelValidateOk r = true →
      r ∈ (validateLoopGo i rs).1 := by
  intro rs
  induction rs with
  | nil => intro i j r hget; simp at hget
  | cons hd rest ih =>
      intro i j r hget hok
      cases j with
      | zero =>
          simp at hget
          subst hget
          unfold validateLoopGo
          simp [hok]
      | succ j =>
          simp only [List.getElem?_cons_succ] at hget
          have hmem := ih (i + 1) j r hget hok
          unfold validateLoopGo
          cases h : modelValidateOk hd with
          | true => simp [h]; right; exact hmem
          | false => simpa [h] using hmem

theorem mem_addKey {acc : List String} {k x : String} :
    x ∈ addKey acc k ↔ x ∈ acc ∨ x = k := by
  unfold addKey
  by_cases h : k ∈ acc
  · rw [if_pos h]
    constructor
    · exact Or.inl
    · rintro (hx | rfl)
      · exact hx
      · exact h
  · rw [if_neg h]
    simp [List.mem_append]

theorem mem_foldl_addKey :
    ∀ (ks acc : List String) (x : String),
      x ∈ ks.foldl addKey acc ↔ x ∈ acc ∨ x ∈ ks := by
  intro ks
  induction ks with
  | nil => intro acc x; simp
  | cons k ks ih =>
      intro acc x
      rw [List.foldl_cons, ih, mem_addKey, List.mem_cons]
      tauto

theorem mem_unionKeys {rs : List RawRecord} {x : String} :
    x ∈ unionKeys rs ↔ ∃ r ∈ rs, x ∈ keysOf r := by
  unfold unionKeys
  suffices h : ∀ (l : List RawRecord) (acc : List String),
      x ∈ l.foldl (fun acc r => (keysOf r).foldl addKey acc) acc ↔
        x ∈ acc ∨ ∃ r ∈ l, x ∈ keysOf r by
    rw [h rs []]
    simp
  intro l
  induction l with
  | nil => intro acc; simp
  | cons r l ih =>
      intro acc
      rw [List.foldl_cons, ih, mem_foldl_addKey]
      constructor
      · rintro ((hx | hk) | ⟨r', hr', hx⟩)
        · exact Or.inl hx
        · exact Or.inr ⟨r, List.mem_cons_self r l, hk⟩
        · exact Or.inr ⟨r', List.mem_cons_of_mem r hr', hx⟩
      · rintro (hx | ⟨r', hr', hx⟩)
        · exact Or.inl (Or.inl hx)
        · rcases List.mem_cons.1 hr' with rfl | hr'
          · exact Or.inl (Or.inr hx)
          · exact Or.inr ⟨r', hr', hx⟩

theorem check_none_of_ok {r : RawRecord} (hok : modelValidateOk r = true)
    {p : String × FieldKind} (hp : p ∈ fieldSpecs) : checkField r p = none := by
  unfold modelValidateOk at hok
  rw [List.isEmpty_iff] at hok
  cases hc : checkField r p with
  | none => rfl
  | some e =>
      exfalso
      have hmem : e ∈ modelValidateErrors r := mem_errors_of_checkField hp hc
      rw [hok] at hmem
      exact List.not_mem_nil e hmem

theorem str_field_of_check_none {r : RawRecord} {nm : String}
    (h : checkValue .kStr (lookupKey r nm) r = none) :
    ∃ s, lookupKey r nm = some (.vStr s) := by
  cases hl : lookupKey r nm with
  | none => rw [hl] at h; simp [checkValue] at h
  | some v =>
      cases v with
      | vStr s => exact ⟨s, rfl⟩
      | vNull => rw [hl] at h; simp [checkValue] at h
      | vInt n => rw [hl] at h; simp [checkValue] at h
      | vFloat q => rw [hl] at h; simp [checkValue] at h
      | vDict d => rw [hl] at h; simp [checkValue] at h

theorem symbol_field_of_check_none {r : RawRecord}
    (h : checkValue .kSymbol (lookupKey r "symbol") r = none) :
    ∃ s, lookupKey r "symbol" = some (.vStr s) ∧ pyMatchLowerAlnum s = true := by
  cases hl : lookupKey r "symbol" with
  | none => rw [hl] at h; simp [checkValue] at h
  | some v =>
      cases v with
      | vStr s =>
          refine ⟨s, rfl, ?_⟩
          rw [hl] at h
          by_cases hm : pyMatchLowerAlnum s
          · exact hm
          · simp [checkValue, hm] at h
      | vNull => rw [hl] at h; simp [checkValue] at h
      | vInt n => rw [hl] at h; simp [checkValue] at h
      | vFloat q => rw [hl] at h; simp [checkValue] at h
      | vDict d => rw [hl] at h; simp [checkValue] at h

theorem pyMatch_ne_empty {s : String} (h : pyMatchLowerAlnum s = true) : s ≠ "" := by
  intro hs
  subst hs
  exact absurd h (by decide)

theorem isEmpty_false_of_ne_nil {α : Type} {l : List α} (h : l ≠ []) :
    l.isEmpty = false := by
  cases l with
  | nil => exact absurd rfl h
  | cons a l => rfl

/-! ## Claim C1 -/

/-- Claim C1 (code bug): for an empty input batch, the validator does NOT
report success_rate == 0 — the success-rate log line divides
len(valid_records) by total_records with no zero guard (assets.py line
352), so the run raises ZeroDivisionError; the storage step's empty-input
guard itself does hold (it returns the existing handle and performs no
table modification). -/
theorem c1_empty_batch_zero_division :
    validateCryptoDataAsset (some []) none =
      .error "ZeroDivisionError: division by zero" ∧
    ∀ (parse : String → Option PDTimestamp)
      (cast : String → Option RawValue → Option (Option RawValue)) (db : Option Table),
      storeValidatedCryptoData parse cast [] db = .ok db :=
  ⟨rfl, fun _ _ _ => rfl⟩

/-! ## Claim C4 -/

/-- Claim C4: the validation loop places every record of the batch in
exactly one of the valid list and the rejection list, so
valid_count + invalid_count = total_count; each record's placement depends
only on its own validation, so no single record's failure aborts the
processing of the remaining records. -/
theorem c4_partition_of_batch (rs : List RawRecord) :
    (validateLoop rs).1.length + (validateLoop rs).2.length = rs.length ∧
    ∀ (j : Nat) (r : RawRecord), rs[j]? = some r →
      (modelValidateOk r = true → r ∈ (validateLoop rs).1) ∧
      (modelValidateOk r = false →
        (⟨j, r, modelValidateErrors r⟩ : InvalidEntry) ∈ (validateLoop rs).2) := by
  refine ⟨validateLoopGo_length rs 0, ?_⟩
  intro j r hget
  constructor
  · intro hok
    exact validateLoopGo_valid_mem rs 0 j r hget hok
  · intro hbad
    have h := validateLoopGo_invalid_mem rs 0 j r hget hbad
    simpa using h

/-- Witness for C4 at a concrete two-record batch with one failing
record. -/
theorem c4_partition_of_batch_witness :
    (validateLoop [goodRec, negPriceRec]).1.length +
      (validateLoop [goodRec, negPriceRec]).2.length = 2 ∧
    goodRec ∈ (validateLoop [goodRec, negPriceRec]).1 ∧
    (⟨1, negPriceRec, modelValidateErrors negPriceRec⟩ : InvalidEntry) ∈
      (validateLoop [goodRec, negPriceRec]).2 := by
  have h := c4_partition_of_batch [goodRec, negPriceRec]
  exact ⟨h.1, (h.2 0 goodRec rfl).1 (by decide), (h.2 1 negPriceRec rfl).2 (by decide)⟩

/-! ## Claim C6 -/

/-- Claim C6: every rejected record yields a rejection entry holding its
original batch index, the raw record itself, and the full diagnostics
list; the diagnostics contain one entry per violated field constraint
(exactly as many entries as failing field checks, and every failing field
check's diagnostic is present), with no short-circuiting on the first
failure. -/
theorem c6_rejection_entry_diagnostics (rs : List RawRecord) (j : Nat)
    (r : RawRecord) (hget : rs[j]? = some r) (hbad : modelValidateOk r = false) :
    (⟨j, r, modelValidateErrors r⟩ : InvalidEntry) ∈ (validateLoop rs).2 ∧
    (modelValidateErrors r).length =
      fieldSpecs.countP (fun p => (checkField r p).isSome) ∧
    ∀ p ∈ fieldSpecs, ∀ e, checkField r p = some e → e ∈ modelValidateErrors r := by
  refine ⟨?_, length_modelValidateErrors r, fun p hp e he => mem_errors_of_checkField hp he⟩
  have h := validateLoopGo_invalid_mem rs 0 j r hget hbad
  simpa using h

/-- Witness for C6 at a record violating two constraints at once
(uppercase symbol and negative price): its entry carries index 0, the raw
record, and two diagnostics. -/
theorem c6_rejection_entry_diagnostics_witness :
    ((⟨0, twoViolationsRec, modelValidateErrors twoViolationsRec⟩ : InvalidEntry) ∈
      (validateLoop [twoViolationsRec]).2 ∧
     (modelValidateErrors twoViolationsRec).length =
       fieldSpecs.countP (fun p => (checkField twoViolationsRec p).isSome) ∧
     ∀ p ∈ fieldSpecs, ∀ e, checkField twoViolationsRec p = some e →
       e ∈ modelValidateErrors twoViolationsRec) ∧
    (modelValidateErrors twoViolationsRec).length = 2 :=
  ⟨c6_rejection_entry_diagnostics [twoViolationsRec] 0 twoViolationsRec rfl (by decide),
   by decide⟩

/-! ## Claim C3 -/

/-- Claim C3 counterexample: a record whose id and name are both the empty
string passes validation (id and name carry no non-emptiness constraint in
models.py; only symbol has the regex validator), refuting the claim that
an empty-string id or name is rejected. -/
theorem c3_counterexample_empty_id_name_accepted :
    lookupKey emptyIdNameRec "id" = some (.vStr "") ∧
    lookupKey emptyIdNameRec "name" = some (.vStr "") ∧
    modelValidateOk emptyIdNameRec = true :=
  ⟨rfl, rfl, by decide⟩

/-- Claim C3 (amended): a raw record is accepted only if its id, symbol
and name are all strings, and symbol additionally matches the source's
^[a-z0-9]+$ check (hence is non-empty); empty-string id or name values are
NOT rejected. -/
theorem c3_amended_identity_fields (r : RawRecord) (hok : modelValidateOk r = true) :
    (∃ s, lookupKey r "id" = some (.vStr s)) ∧
    (∃ s, lookupKey r "name" = some (.vStr s)) ∧
    (∃ s, lookupKey r "symbol" = some (.vStr s) ∧
      pyMatchLowerAlnum s = true ∧ s ≠ "") := by
  have hid := check_none_of_ok hok (p := ("id", .kStr)) (by decide)
  have hname := check_none_of_ok hok (p := ("name", .kStr)) (by decide)
  have hsym := check_none_of_ok hok (p := ("symbol", .kSymbol)) (by decide)
  unfold checkField at hid hname hsym
  rw [Option.map_eq_none'] at hid hname hsym
  refine ⟨str_field_of_check_none hid, str_field_of_check_none hname, ?_⟩
  rcases symbol_field_of_check_none hsym with ⟨s, hl, hm⟩
  exact ⟨s, hl, hm, pyMatch_ne_empty hm⟩

/-- Witness for the amended C3 at a concrete accepted record. -/
theorem c3_amended_identity_fields_witness :
    (∃ s, lookupKey goodRec "id" = some (.vStr s)) ∧
    (∃ s, lookupKey goodRec "name" = some (.vStr s)) ∧
    (∃ s, lookupKey goodRec "symbol" = some (.vStr s) ∧
      pyMatchLowerAlnum s = true ∧ s ≠ "") :=
  c3_amended_identity_fields goodRec (by decide)

/-! ## Claim C7 -/

theorem error_citing_float_nonneg {r : RawRecord} {nm : String} {q : Rat}
    (hmem : (nm, FieldKind.kFloat .nonneg) ∈ fieldSpecs)
    (hl : lookupKey r nm = some (.vFloat q)) (hq : q < 0) :
    ∃ e ∈ modelValidateErrors r, e.field = nm := by
  refine ⟨⟨nm, .val (.vFloat q), "Value error, Price and volume values must be positive"⟩,
    mem_errors_of_checkField hmem ?_, rfl⟩
  unfold checkField
  rw [hl]
  simp [checkValue, floatCheck, hq]

theorem error_citing_int_nonneg_int {r : RawRecord} {nm : String} {n : Int}
    (hmem : (nm, FieldKind.kInt .nonneg) ∈ fieldSpecs)
    (hl : lookupKey r nm = some (.vInt n)) (hn : n < 0) :
    ∃ e ∈ modelValidateErrors r, e.field = nm := by
  refine ⟨⟨nm, .val (.vInt n), "Value error, Price and volume values must be positive"⟩,
    mem_errors_of_checkField hmem ?_, rfl⟩
  unfold checkField
  rw [hl]
  simp [checkValue, intCheck, hn]

theorem error_citing_int_nonneg_float {r : RawRecord} {nm : String} {q : Rat}
    (hmem : (nm, FieldKind.kInt .nonneg) ∈ fieldSpecs)
    (hl : lookupKey r nm = some (.vFloat q)) (hq : q < 0) :
    ∃ e ∈ modelValidateErrors r, e.field = nm := by
  by_cases hden : q.den = 1
  · refine ⟨⟨nm, .val (.vFloat q), "Value error, Price and volume values must be positive"⟩,
      mem_errors_of_checkField hmem ?_, rfl⟩
    unfold checkField
    rw [hl]
    have hn : q.num < 0 := by
      rw [← not_le, Rat.num_nonneg]
      exact not_le.mpr hq
    simp [checkValue, hden, intCheck, hn]
  · refine ⟨⟨nm, .val (.vFloat q),
      "Input should be a valid integer, got a number with a fractional part"⟩,
      mem_errors_of_checkField hmem ?_, rfl⟩
    unfold checkField
    rw [hl]
    simp [checkValue, hden]

/-- Claim C7: each of current_price, market_cap, total_volume, high_24h
and low_24h must be non-negative — a negative value always produces a
rejection diagnostic citing that field — while a value of exactly 0 does
not violate the constraint (the validator rejects only v < 0). -/
theorem c7_nonnegative_numeric_fields (r : RawRecord) (q : Rat) (n : Int) :
    (lookupKey r "current_price" = some (.vFloat q) → q < 0 →
      ∃ e ∈ modelValidateErrors r, e.field = "current_price") ∧
    (lookupKey r "high_24h" = some (.vFloat q) → q < 0 →
      ∃ e ∈ modelValidateErrors r, e.field = "high_24h") ∧
    (lookupKey r "low_24h" = some (.vFloat q) → q < 0 →
      ∃ e ∈ modelValidateErrors r, e.field = "low_24h") ∧
    (lookupKey r "market_cap" = some (.vInt n) → n < 0 →
      ∃ e ∈ modelValidateErrors r, e.field = "market_cap") ∧
    (lookupKey r "market_cap" = some (.vFloat q) → q < 0 →
      ∃ e ∈ modelValidateErrors r, e.field = "market_cap") ∧
    (lookupKey r "total_volume" = some (.vInt n) → n < 0 →
      ∃ e ∈ modelValidateErrors r, e.field = "total_volume") ∧
    (lookupKey r "total_volume" = some (.vFloat q) → q < 0 →
      ∃ e ∈ modelValidateErrors r, e.field = "total_volume") ∧
    (lookupKey r "current_price" = some (.vFloat 0) →
      ¬ ∃ e ∈ modelValidateErrors r, e.field = "current_price") := by
  refine ⟨fun hl hq => error_citing_float_nonneg (by decide) hl hq,
    fun hl hq => error_citing_float_nonneg (by decide) hl hq,
    fun hl hq => error_citing_float_nonneg (by decide) hl hq,
    fun hl hn => error_citing_int_nonneg_int (by decide) hl hn,
    fun hl hq => error_citing_int_nonneg_float (by decide) hl hq,
    fun hl hn => error_citing_int_nonneg_int (by decide) hl hn,
    fun hl hq => error_citing_int_nonneg_float (by decide) hl hq,
    fun hl => ?_⟩
  apply no_error_citing_of_check_none (k := .kFloat .nonneg) (by decide)
  unfold checkField
  rw [hl]
  simp [checkValue, floatCheck]

/-- Witness for C7: current_price = -5.0 is rejected citing
current_price, and current_price = 0 produces no current_price
diagnostic. -/
theorem c7_nonnegative_numeric_fields_witness :
    (∃ e ∈ modelValidateErrors negPriceRec, e.field = "current_price") ∧
    ¬ (∃ e ∈ modelValidateErrors zeroPriceRec, e.field = "current_price") :=
  ⟨(c7_nonnegative_numeric_fields negPriceRec (-5) 0).1 rfl (by norm_num),
   (c7_nonnegative_numeric_fields zeroPriceRec 0 0).2.2.2.2.2.2.2 rfl⟩

/-! ## Claim C8 -/

/-- Full anchored match of [a-z0-9]+ in the formal-language reading of the
pattern ^[a-z0-9]+$ (spec-side definition): at least one character and
every character in the class. -/
def strictMatchLowerAlnum (s : String) : Bool :=
  (!s.data.isEmpty) && s.data.all isLowerAlnumChar

/-- goodRec with a trailing newline in its symbol. -/
def newlineSymbolRec : RawRecord :=
  setVal goodRec "symbol" (.vStr "btc\n")

/-- Claim C8 counterexample: the symbol value with a trailing newline is
accepted by the source's re.match check (Python's dollar anchor matches
just before a trailing newline), although it does not belong to the
language of ^[a-z0-9]+$; the whole record is accepted as valid. -/
theorem c8_counterexample_trailing_newline :
    modelValidateOk newlineSymbolRec = true ∧
    lookupKey newlineSymbolRec "symbol" = some (.vStr "btc\n") ∧
    strictMatchLowerAlnum "btc\n" = false :=
  ⟨by decide, rfl, by decide⟩

/-- Claim C8 (amended): the symbol check passes exactly on the strings
accepted by Python's re.match with ^[a-z0-9]+$, whose dollar anchor also
matches just before one trailing newline; for strings without a trailing
newline this coincides with the strict language of the pattern; "btc"
passes while "BTC" and "btc-1" fail. -/
theorem c8_amended_symbol_regex (s : String) (r : RawRecord) :
    (checkValue .kSymbol (some (.vStr s)) r = none ↔ pyMatchLowerAlnum s = true) ∧
    (s.data.getLast? ≠ some '\n' → pyMatchLowerAlnum s = strictMatchLowerAlnum s) ∧
    pyMatchLowerAlnum "btc" = true ∧
    pyMatchLowerAlnum "BTC" = false ∧
    pyMatchLowerAlnum "btc-1" = false := by
  refine ⟨?_, ?_, by decide, by decide, by decide⟩
  · constructor
    · intro h
      by_cases hm : pyMatchLowerAlnum s
      · exact hm
      · simp [checkValue, hm] at h
    · intro hm
      simp [checkValue, hm]
  · intro h
    unfold pyMatchLowerAlnum strictMatchLowerAlnum stripTrailingNewline
    rw [if_neg h]

/-- Witness for the amended C8 at the concrete symbol "btc". -/
theorem c8_amended_symbol_regex_witness :
    (checkValue .kSymbol (some (.vStr "btc")) goodRec = none ↔
      pyMatchLowerAlnum "btc" = true) ∧
    pyMatchLowerAlnum "btc" = strictMatchLowerAlnum "btc" :=
  ⟨(c8_amended_symbol_regex "btc" goodRec).1,
   (c8_amended_symbol_regex "btc" goodRec).2.1 (by decide)⟩

/-! ## Claim C10 -/

/-- goodRec with a fractional current_price (well-formed otherwise). -/
def fracPriceRec : RawRecord :=
  setVal goodRec "current_price" (.vFloat rat123Point45)

/-- Claim C10: market_cap and total_volume are int-typed in the strict
schema, so a non-integral numeric value (such as 123.45) is rejected with
a fractional-part violation on that field, while the float-typed
current_price accepts the same non-integral value. -/
theorem c10_integer_typed_fields (r : RawRecord) (q : Rat) (hden : q.den ≠ 1) :
    (lookupKey r "market_cap" = some (.vFloat q) →
      ∃ e ∈ modelValidateErrors r, e.field = "market_cap" ∧
        e.msg = "Input should be a valid integer, got a number with a fractional part") ∧
    (lookupKey r "total_volume" = some (.vFloat q) →
      ∃ e ∈ modelValidateErrors r, e.field = "total_volume" ∧
        e.msg = "Input should be a valid integer, got a number with a fractional part") ∧
    (lookupKey r "current_price" = some (.vFloat q) → 0 ≤ q →
      ¬ ∃ e ∈ modelValidateErrors r, e.field = "current_price") := by
  refine ⟨?_, ?_, ?_⟩
  · intro hl
    refine ⟨⟨"market_cap", .val (.vFloat q),
      "Input should be a valid integer, got a number with a fractional part"⟩,
      mem_errors_of_checkField (p := ("market_cap", .kInt .nonneg)) (by decide) ?_,
      rfl, rfl⟩
    unfold checkField
    rw [hl]
    simp [checkValue, hden]
  · intro hl
    refine ⟨⟨"total_volume", .val (.vFloat q),
      "Input should be a valid integer, got a number with a fractional part"⟩,
      mem_errors_of_checkField (p := ("total_volume", .kInt .nonneg)) (by decide) ?_,
      rfl, rfl⟩
    unfold checkField
    rw [hl]
    simp [checkValue, hden]
  · intro hl hq
    apply no_error_citing_of_check_none (k := .kFloat .nonneg) (by decide)
    unfold checkField
    rw [hl]
    simp [checkValue, floatCheck, not_lt.mpr hq]

/-- Witness for C10 at market_cap = 123.45 and current_price = 123.45. -/
theorem c10_integer_typed_fields_witness :
    (∃ e ∈ modelValidateErrors fracMarketCapRec, e.field = "market_cap" ∧
      e.msg = "Input should be a valid integer, got a number with a fractional part") ∧
    ¬ (∃ e ∈ modelValidateErrors fracPriceRec, e.field = "current_price") :=
  ⟨(c10_integer_typed_fields fracMarketCapRec rat123Point45 (by decide)).1 rfl,
   (c10_integer_typed_fields fracPriceRec rat123Point45 (by decide)).2.2 rfl (by decide)⟩

/-! ## Claim C2 -/

/-- goodRec without its optional roi key (and no extra key): 26 keys. -/
def noRoiRec : RawRecord :=
  goodRec.filter (fun p => p.1 ≠ "roi")

/-- Claim C2 counterexample: the storage step does not normalize records
to the fixed 27-column set.  A valid record with an unrecognized extra key
keeps that key as a DataFrame column, and a valid record lacking the
optional roi key everywhere yields no roi column at all; with 26 columns
the positional insert into the 27-column table fails outright. -/
theorem c2_counterexample_columns_not_fixed :
    modelValidateOk noRoiExtraKeyRec = true ∧
    "listing_notes" ∈ (buildDf (fun _ => none) [noRoiExtraKeyRec]).columns ∧
    "roi" ∉ (buildDf (fun _ => none) [noRoiExtraKeyRec]).columns ∧
    modelValidateOk noRoiRec = true ∧
    storeValidatedCryptoData (fun _ => none) (fun _ c => some c) [noRoiRec] none =
      .error "Binder Error: table validated_crypto_data has a different number of columns" :=
  ⟨by decide, by decide, by decide, by decide, rfl⟩

/-- Claim C2 (amended): the storage step does not project records onto the
fixed column set before writing — the DataFrame's columns are exactly the
union of the input records' keys (unrecognized extra keys are retained as
columns and a key absent from every record produces no column, so the
positional insert can only succeed when that union has exactly as many
columns as the table); one row is written per record. -/
theorem c2_amended_columns_are_key_union (parse : String → Option PDTimestamp)
    (cast : String → Option RawValue → Option (Option RawValue))
    (rs : List RawRecord) (k : String) :
    (k ∈ (buildDf parse rs).columns ↔ ∃ r ∈ rs, k ∈ keysOf r) ∧
    (buildDf parse rs).rows.length = rs.length ∧
    (rs ≠ [] → (unionKeys rs).length ≠ fixedSchema.length →
      storeValidatedCryptoData parse cast rs none =
        .error "Binder Error: table validated_crypto_data has a different number of columns") := by
  refine ⟨mem_unionKeys, List.length_map rs _, ?_⟩
  intro hne hlen
  unfold storeValidatedCryptoData
  rw [isEmpty_false_of_ne_nil hne]
  simp only [Bool.false_eq_true, if_false, buildDf, Option.getD_none]
  rw [if_neg hlen]

/-- Witness for the amended C2 at a concrete one-record batch. -/
theorem c2_amended_columns_are_key_union_witness :
    ("listing_notes" ∈ (buildDf (fun _ => none) [noRoiExtraKeyRec]).columns ↔
      ∃ r ∈ [noRoiExtraKeyRec], "listing_notes" ∈ keysOf r) ∧
    (buildDf (fun _ => none) [noRoiExtraKeyRec]).rows.length = 1 ∧
    storeValidatedCryptoData (fun _ => none) (fun _ c => some c) [noRoiRec] none =
      .error "Binder Error: table validated_crypto_data has a different number of columns" := by
  have h1 := c2_amended_columns_are_key_union (fun _ => none) (fun _ c => some c)
    [noRoiExtraKeyRec] "listing_notes"
  have h2 := c2_amended_columns_are_key_union (fun _ => none) (fun _ c => some c)
    [noRoiRec] "roi"
  exact ⟨h1.1, h1.2.1, h2.2.2 (List.cons_ne_nil _ _) (by decide)⟩

/-! ## Claim C5 -/

theorem coerceRows_length {cast : String → Option RawValue → Option (Option RawValue)}
    {schema : List (String × String)} :
    ∀ {rows rows2 : List (List (Option RawValue))},
      coerceRows cast schema rows = some rows2 → rows2.length = rows.length := by
  intro rows
  induction rows with
  | nil =>
      intro rows2 h
      unfold coerceRows at h
      injection h with h
      rw [← h]
  | cons row rows ih =>
      intro rows2 h
      unfold coerceRows at h
      cases h1 : coerceRow cast schema row with
      | none => rw [h1] at h; simp at h
      | some r2 =>
          cases h2 : coerceRows cast schema rows with
          | none => rw [h1, h2] at h; simp at h
          | some rs =>
              rw [h1, h2] at h
              injection h with h
              rw [← h]
              simp [ih h2]

/-- Claim C5 counterexample: a batch of valid records that all lack the
optional roi key (which the claim covers) makes the very first store on a
fresh location fail — the 26-column DataFrame cannot be positionally
inserted into the 27-column table, so no table with the summed row count
results and the claimed double-store property fails as stated. -/
theorem c5_counterexample_misaligned_fresh_store :
    modelValidateOk noRoiRec = true ∧
    storeValidatedCryptoData (fun _ => none) (fun _ c => some c) [noRoiRec] none =
      .error "Binder Error: table validated_crypto_data has a different number of columns" ∧
    storeValidatedCryptoData (fun _ => none) (fun _ c => some c) [noRoiRec, noRoiRec] none =
      .error "Binder Error: table validated_crypto_data has a different number of columns" :=
  ⟨by decide, rfl, rfl⟩

/-- Claim C5 (amended): the store operation never alters an existing
table's column set or types on append (CREATE TABLE IF NOT EXISTS leaves
an existing table untouched and a successful insert only appends rows,
while a failed insert writes nothing); calling store twice in succession
on a fresh location yields a table whose row count equals the sum of both
batches' record counts, with the schema equal to the fixed schema
throughout, provided each batch's inserts succeed — its key union has
exactly the table's column count and every cell casts to its positional
column's type — and otherwise the run fails with an error and no rows are
written. -/
theorem c5_store_append_preserves_schema (parse : String → Option PDTimestamp)
    (cast : String → Option RawValue → Option (Option RawValue)) :
    (∀ (records : List RawRecord) (t : Table) (res : Option Table),
        storeValidatedCryptoData parse cast records (some t) = .ok res →
        ∃ t2, res = some t2 ∧ t2.schema = t.schema) ∧
    (∀ (r1 r2 : List RawRecord) (rows1 rows2 : List (List (Option RawValue))),
        r1 ≠ [] → r2 ≠ [] →
        (unionKeys r1).length = fixedSchema.length →
        (unionKeys r2).length = fixedSchema.length →
        coerceRows cast fixedSchema (buildDf parse r1).rows = some rows1 →
        coerceRows cast fixedSchema (buildDf parse r2).rows = some rows2 →
        ∃ t1 t2,
          storeValidatedCryptoData parse cast r1 none = .ok (some t1) ∧
          t1.schema = fixedSchema ∧ t1.rows.length = r1.length ∧
          storeValidatedCryptoData parse cast r2 (some t1) = .ok (some t2) ∧
          t2.schema = fixedSchema ∧
          t2.rows.length = r1.length + r2.length) := by
  constructor
  · intro records t res hok
    unfold storeValidatedCryptoData at hok
    by_cases hrec : records.isEmpty
    · rw [if_pos hrec] at hok
      injection hok with h
      exact ⟨t, h.symm, rfl⟩
    · rw [if_neg hrec] at hok
      simp only [Option.getD_some] at hok
      by_cases hlen : (buildDf parse records).columns.length = t.schema.length
      · rw [if_pos hlen] at hok
        cases hco : coerceRows cast t.schema (buildDf parse records).rows with
        | none =>
            rw [hco] at hok
            exact absurd hok (by simp)
        | some newRows =>
            rw [hco] at hok
            have h := Except.ok.inj hok
            exact ⟨⟨t.schema, t.rows ++ newRows⟩, h.symm, rfl⟩
      · rw [if_neg hlen] at hok
        exact absurd hok (by simp)
  · intro r1 r2 rows1 rows2 h1 h2 hc1 hc2 hco1 hco2
    refine ⟨⟨fixedSchema, [] ++ rows1⟩, ⟨fixedSchema, ([] ++ rows1) ++ rows2⟩,
      ?_, rfl, ?_, ?_, rfl, ?_⟩
    · unfold storeValidatedCryptoData
      rw [isEmpty_false_of_ne_nil h1]
      simp only [Bool.false_eq_true, if_false, Option.getD_none]
      rw [if_pos (show (buildDf parse r1).columns.length = fixedSchema.length from hc1),
        hco1]
    · simpa using (coerceRows_length hco1).trans (by simp [buildDf])
    · unfold storeValidatedCryptoData
      rw [isEmpty_false_of_ne_nil h2]
      simp only [Bool.false_eq_true, if_false, Option.getD_some]
      rw [if_pos (show (buildDf parse r2).columns.length = fixedSchema.length from hc2),
        hco2]
    · have hl1 : rows1.length = r1.length :=
        (coerceRows_length hco1).trans (by simp [buildDf])
      have hl2 : rows2.length = r2.length :=
        (coerceRows_length hco2).trans (by simp [buildDf])
      simp [hl1, hl2]

/-- Witness for the amended C5: two stores on a fresh location with
aligned one-record and two-record batches under the identity per-value
cast. -/
theorem c5_store_append_preserves_schema_witness :
    ∃ t1 t2,
      storeValidatedCryptoData (fun _ => none) (fun _ c => some c) [goodRec] none =
        .ok (some t1) ∧
      t1.schema = fixedSchema ∧ t1.rows.length = 1 ∧
      storeValidatedCryptoData (fun _ => none) (fun _ c => some c) [goodRec, goodRec]
        (some t1) = .ok (some t2) ∧
      t2.schema = fixedSchema ∧ t2.rows.length = 3 := by
  have h := (c5_store_append_preserves_schema (fun _ => none) (fun _ c => some c)).2
    [goodRec] [goodRec, goodRec] _ _ (List.cons_ne_nil _ _) (List.cons_ne_nil _ _)
    (by decide) (by decide) rfl rfl
  exact h

/-! ## Claim C9 -/

/-- Decimal digit test (spec-side helper for the canonical shape). -/
def isDigitChar (c : Char) : Bool :=
  decide ('0' ≤ c) && decide (c ≤ '9')

/-- Shape test for the canonical text format YYYY-MM-DD HH:MM:SS
(spec-side definition, following the format string of §4.3/§8). -/
def isCanonicalTimestampString (s : String) : Bool :=
  match s.data with
  | [y1, y2, y3, y4, d1, mo1, mo2, d2, dd1, dd2, sp,
     hh1, hh2, c1, mi1, mi2, c2, ss1, ss2] =>
      isDigitChar y1 && isDigitChar y2 && isDigitChar y3 && isDigitChar y4 &&
      (d1 == '-') && isDigitChar mo1 && isDigitChar mo2 && (d2 == '-') &&
      isDigitChar dd1 && isDigitChar dd2 && (sp == ' ') &&
      isDigitChar hh1 && isDigitChar hh2 && (c1 == ':') &&
      isDigitChar mi1 && isDigitChar mi2 && (c2 == ':') &&
      isDigitChar ss1 && isDigitChar ss2
  | _ => false

theorem isDigitChar_digitChar (m : Nat) : isDigitChar (digitChar m) = true := by
  unfold digitChar
  rcases m with _|_|_|_|_|_|_|_|_|_ <;> rfl

theorem isCanonical_strftimeCanonical (t : PDTimestamp) :
    isCanonicalTimestampString (strftimeCanonical t) = true := by
  simp [isCanonicalTimestampString, strftimeCanonical, pad4, pad2,
    isDigitChar_digitChar]

/-- Claim C9: in every datetime column, the stored cell is always a
string; a parseable timestamp string is normalized to the canonical
YYYY-MM-DD HH:MM:SS text format, while an unparseable string and a
missing or None value are written as the empty string (never a null/NaN).
The pandas timestamp parser is abstract here; its only assumed property is
that the empty string does not parse, which pd.to_datetime guarantees
under errors="coerce". -/
theorem c9_datetime_columns_normalized (parse : String → Option PDTimestamp)
    (hparse : parse "" = none) (rs : List RawRecord) (rec : RawRecord)
    (c : String) (hc : c ∈ datetimeCols) :
    ∃ out : String, storedCell parse rs rec c = some (.vStr out) ∧
      (∀ s t, lookupKey rec c = some (.vStr s) → parse s = some t →
        out = strftimeCanonical t ∧ isCanonicalTimestampString out = true) ∧
      (∀ s, lookupKey rec c = some (.vStr s) → parse s = none → out = "") ∧
      (lookupKey rec c = none → out = "") ∧
      (lookupKey rec c = some .vNull → out = "") := by
  unfold storedCell transformCell
  rw [if_pos hc]
  refine ⟨datetimeCellConvert parse
    (if isObjectColumn rs c && cellIsNullish (lookupKey rec c) then some (.vStr "") else lookupKey rec c),
    rfl, ?_, ?_, ?_, ?_⟩
  · intro s t hl hp
    rw [hl]
    simp only [cellIsNullish, Bool.and_false, Bool.false_eq_true, if_false]
    constructor
    · simp [datetimeCellConvert, hp]
    · simp [datetimeCellConvert, hp, isCanonical_strftimeCanonical]
  · intro s hl hp
    rw [hl]
    simp only [cellIsNullish, Bool.and_false, Bool.false_eq_true, if_false]
    simp [datetimeCellConvert, hp]
  · intro hl
    rw [hl]
    by_cases ho : isObjectColumn rs c
    · simp only [ho, cellIsNullish, Bool.and_true, if_true]
      simp [datetimeCellConvert, hparse]
    · simp only [ho, cellIsNullish, Bool.false_and, Bool.false_eq_true, if_false]
      simp [datetimeCellConvert]
  · intro hl
    rw [hl]
    by_cases ho : isObjectColumn rs c
    · simp only [ho, cellIsNullish, Bool.and_true, if_true]
      simp [datetimeCellConvert, hparse]
    · simp only [ho, cellIsNullish, Bool.false_and, Bool.false_eq_true, if_false]
      simp [datetimeCellConvert]

/-- Witness for C9: a parser recognizing one fixed string, applied to
goodRec's last_updated column (the concrete string parses and is stored in
canonical form) and to its unparsed atl_date column (stored as the empty
string would require an unparseable input; here the parseable case is
exercised and the canonical shape is checked concretely). -/
theorem c9_datetime_columns_normalized_witness :
    ∃ out : String,
      storedCell
        (fun s => if s = "2024-01-01T00:00:00.000Z" then
          some ⟨2024, 1, 1, 0, 0, 0⟩ else none)
        [goodRec] goodRec "last_updated" = some (.vStr out) ∧
      out = strftimeCanonical ⟨2024, 1, 1, 0, 0, 0⟩ ∧
      isCanonicalTimestampString out = true := by
  have h := c9_datetime_columns_normalized
    (fun s => if s = "2024-01-01T00:00:00.000Z" then
      some ⟨2024, 1, 1, 0, 0, 0⟩ else none)
    (by decide) [goodRec] goodRec "last_updated" (by decide)
  rcases h with ⟨out, hcell, hparseable, _, _, _⟩
  have hres := hparseable "2024-01-01T00:00:00.000Z" ⟨2024, 1, 1, 0, 0, 0⟩ rfl (by decide)
  exact ⟨out, hcell, hres.1, hres.2⟩

end CryptoPipeline
